import Mathlib

/-!
Shallow embedding of `final_mapping_code/final.py`, a CSV-to-CSV mapping tool.

A tabular cell is modelled as `Option String`: `none` stands for a missing
value (pandas `NaN`), `some s` for the string `s`.  Pandas column operations
(`astype(str)`, `.str.strip()`, `.str[0]`, `.fillna`, `.where`) are embedded
as per-cell functions, and the per-row mapping loop of `map_csv_to_csv` as a
pure function from a source row and a template to a resolved target record.
-/

namespace MappingTool

/-- A pandas cell: `none` is `NaN`, `some s` is the string value `s`. -/
abbrev Cell := Option String

/-- `Series.astype(str)`: `NaN` becomes the literal string `"nan"`. -/
def astypeStr (c : Cell) : String :=
  match c with
  | none => "nan"
  | some s => s

/-- `Series.fillna(d)` on one cell. -/
def fillnaCell (d : String) (c : Cell) : Cell :=
  match c with
  | none => some d
  | some s => some s

/-- `pd.notna(current) and current != ""`, the guard of `update_value`. -/
def cellNonEmpty (c : Cell) : Bool :=
  match c with
  | none => false
  | some s => s != ""

/-- Python `str.strip()`: drop whitespace from both ends. -/
def pyStrip (s : String) : String :=
  String.mk (((s.data.dropWhile Char.isWhitespace).reverse.dropWhile Char.isWhitespace).reverse)

/-- Python `str.lower()`. -/
def pyLower (s : String) : String :=
  String.mk (s.data.map Char.toLower)

/-- Pandas `.str[0]`: first character, `NaN` on the empty string. -/
def strGet0 (s : String) : Option Char :=
  s.data.head?

/-- The initials column:
`astype(str).str[0].str.upper() + "."`, then `.where(givenName.notna(), "")`. -/
def initialsOf (given : Cell) : Cell :=
  let upperDot := (strGet0 (astypeStr given)).map (fun ch => String.mk [ch.toUpper, '.'])
  if given.isSome then upperDot else some ""

/-- Python `str.split('.')[0]` on a character list: everything before the
first `'.'`. -/
def splitDotHeadAux : List Char → List Char
  | [] => []
  | c :: cs => if c = '.' then [] else c :: splitDotHeadAux cs

/-- Python `str.split('.')[0]` on a string. -/
def splitDotHead (s : String) : String :=
  String.mk (splitDotHeadAux s.data)

/-- `astype(str).str.strip()` then `.fillna("NOT FOUND")`
(the `fundingBodyAwardId` normalization). -/
def normFundingBodyAwardId (c : Cell) : Cell :=
  fillnaCell "NOT FOUND" (some (pyStrip (astypeStr c)))

/-- `astype(str).str.split('.').str[0]` then `.fillna("NOT FOUND")`
(the funding-amount normalization). -/
def normAmount (c : Cell) : Cell :=
  fillnaCell "NOT FOUND" (some (splitDotHead (astypeStr c)))

/-- `.fillna('')` used when the full name is assembled. -/
def orEmpty (c : Cell) : String :=
  match c with
  | none => ""
  | some s => s

/-- The `funds/status` derivation of the per-row loop: `"OPEN"` when both
dates are present and `endDate > createdOn`, `"CLOSED"` when both are present
otherwise, `"UNKNOWN"` when either is the `NaT` sentinel.  Dates are modelled
by their ordinals (`Int`), `none` being `NaT`. -/
def fundsStatus (endDate createdOn : Option Int) : String :=
  match endDate, createdOn with
  | some e, some c => if e > c then "OPEN" else "CLOSED"
  | _, _ => "UNKNOWN"

def givenKey : String := "awardeeDetail/affiliationOf/givenName"
def familyKey : String := "awardeeDetail/affiliationOf/familyName"
def initialsKey : String := "awardeeDetail/affiliationOf/initials"
def nameKey : String := "awardeeDetail/affiliationOf/name"
def amountKey : String := "fundingDetail/fundingTotal/amount"
def deptKey : String := "awardeeDetail/departmentName"
def orcidKey : String := "awardeeDetail/affiliationOf/identifier/id/orcid"
def fbaKey : String := "fundingBodyAwardId"
def statusKey : String := "funds/status"
def dataFieldCol : String := "JSON Schema 5.0 Data Field"

/-- A row of a table: an association of column names to cells
(`row.to_dict()` in the source). -/
abbrev Row := List (String × Cell)

/-- Reading a cell of a row; a column missing from the row reads as `NaN`. -/
def getCell (row : Row) (k : String) : Cell :=
  (row.lookup k).getD none

/-- Assigning a column of a row (`df[k] = v` restricted to one row):
dictionary update, the new binding shadowing any old one. -/
def setEntry {α : Type} (k : String) (v : α) (m : List (String × α)) : List (String × α) :=
  (k, v) :: m.filter (fun p => p.1 != k)

/-- One normalized source row, as the per-row loop sees it: the full
`row.to_dict()` mapping plus the individually accessed attributes. -/
structure NormRow where
  items : Row
  fundingBodyAwardId : Cell
  initials : Cell
  amount : Cell
  departmentName : Cell
  orcid : Cell
  endDate : Option Int
  createdOn : Option Int
  grantAwardId : Option Cell

/-- The cell stored in the `endDate`/`createdOn` columns after
`pd.to_datetime(...).dt.date`: `NaT` for `none`, a date rendering otherwise. -/
def dateCell (d : Option Int) : Cell :=
  d.map (fun i => toString i)

/-- The column-wise normalizations of `map_csv_to_csv`, restricted to one
row.  `parse` models `pd.to_datetime(..., errors="coerce", dayfirst=True)`;
`cols` is the source table's column list (the optional `familyName` merge and
the `grantAwardId` access depend on column presence). -/
def normalizeRow (parse : String → Option Int) (cols : List String) (row : Row) : NormRow :=
  let given := getCell row givenKey
  let inits := initialsOf given
  let fba := normFundingBodyAwardId (getCell row fbaKey)
  let ed := (getCell row "endDate").bind parse
  let cd := (getCell row "createdOn").bind parse
  let amt := normAmount (getCell row amountKey)
  let dept := fillnaCell "NOT FOUND" (getCell row deptKey)
  let orc := fillnaCell "NOT FOUND" (getCell row orcidKey)
  let items0 := setEntry initialsKey inits row
  let items1 := setEntry fbaKey fba items0
  let items2 :=
    if familyKey ∈ cols then
      setEntry nameKey
        (some (pyStrip (orEmpty given ++ " " ++ orEmpty (getCell row familyKey)))) items1
    else items1
  let items3 := setEntry "endDate" (dateCell ed) items2
  let items4 := setEntry "createdOn" (dateCell cd) items3
  let items5 := setEntry amountKey amt items4
  let items6 := setEntry deptKey dept items5
  let items7 := setEntry orcidKey orc items6
  { items := items7, fundingBodyAwardId := fba, initials := inits, amount := amt,
    departmentName := dept, orcid := orc, endDate := ed, createdOn := cd,
    grantAwardId := if "grantAwardId" ∈ cols then some (getCell row "grantAwardId") else none }

/-- One row of the target template: the schema key and the (possibly
pre-populated) value. -/
structure SchemaField where
  dataField : Cell
  value : Cell
deriving DecidableEq

/-- The inner `update_value` of `map_csv_to_csv`: keep a non-empty current
value, otherwise `source_mapping.get(field_name, "NOT FOUND")`. -/
def update_value (items : Row) (field_name : Cell) (current : Cell) : Cell :=
  if cellNonEmpty current then current
  else
    match field_name with
    | none => some "NOT FOUND"
    | some k =>
      match items.lookup k with
      | some v => v
      | none => some "NOT FOUND"

/-- `df.loc[df[dataFieldCol] == k, valueCol] = v` on the template. -/
def setField (k : String) (v : Cell) (t : List SchemaField) : List SchemaField :=
  t.map (fun f => if f.dataField = some k then { f with value := v } else f)

/-- The body of the per-row loop: copy the template, pre-set
`fundingBodyAwardId`, apply `update_value` to every row, then the five
unconditional `loc` assignments, in source order. -/
def mapRecord (r : NormRow) (template : List SchemaField) : List SchemaField :=
  let t1 := setField fbaKey r.fundingBodyAwardId template
  let t2 := t1.map (fun f => { f with value := update_value r.items f.dataField f.value })
  let t3 := setField statusKey (some (fundsStatus r.endDate r.createdOn)) t2
  let t4 := setField initialsKey r.initials t3
  let t5 := setField amountKey r.amount t4
  let t6 := setField deptKey r.departmentName t5
  setField orcidKey r.orcid t6

/-- The fallback output identifier `f"row_{index + 1}"`. -/
def rowTag (i : Nat) : String := "row_" ++ toString i

/-- Output-file identifier: `str(row.get("grantAwardId", f"row_{i}")).strip()`
with the empty/"nan" fallback.  `grant = none` means the `grantAwardId`
column is absent from the source table. -/
def outputId (grant : Option Cell) (index1 : Nat) : String :=
  let g := pyStrip (match grant with
    | none => rowTag index1
    | some c => astypeStr c)
  if g = "" ∨ pyLower g = "nan" then rowTag index1 else g

/-- The output-file name `f"mapped_output_{grant_award_id}.csv"`. -/
def outFileName (ident : String) : String :=
  "mapped_output_" ++ ident ++ ".csv"

/-- The source table: column names and rows. -/
structure SourceTable where
  cols : List String
  rows : List Row

/-- The target template table: column names and the parsed schema fields. -/
structure TargetTable where
  cols : List String
  fields : List SchemaField

/-- The per-record output: identifier for the Writer plus the resolved
target record (one iteration of the source's row loop, `idx` 0-based). -/
def perRowOutput (parse : String → Option Int) (cols : List String) (idx : Nat)
    (row : Row) (fields : List SchemaField) : String × List SchemaField :=
  let r := normalizeRow parse cols row
  (outputId r.grantAwardId (idx + 1), mapRecord r fields)

/-- The whole run of `map_csv_to_csv`: the fail-fast column checks in source
order, then one output per source row.  An `[ERROR]`-print-and-return or a
raised `ValueError` is modelled as `Except.error`. -/
def map_csv_to_csv (parse : String → Option Int) (src : SourceTable) (tgt : TargetTable) :
    Except String (List (String × List SchemaField)) :=
  if dataFieldCol ∈ tgt.cols then
    if givenKey ∈ src.cols then
      if fbaKey ∈ src.cols then
        if "endDate" ∈ src.cols ∧ "createdOn" ∈ src.cols then
          if amountKey ∈ src.cols then
            if deptKey ∈ src.cols then
              if orcidKey ∈ src.cols then
                Except.ok (src.rows.enum.map
                  (fun p => perRowOutput parse src.cols p.1 p.2 tgt.fields))
              else Except.error "orcid column is missing in the Source CSV"
            else Except.error "departmentName column is missing in the Source CSV"
          else Except.error "fundingTotal/amount column is missing in the Source CSV"
        else Except.error "endDate or createdOn column is missing in the Source CSV"
      else Except.error "fundingBodyAwardId column is missing in the Source CSV"
    else Except.error "Given name column is missing in the Source CSV"
  else Except.error "Target CSV must contain a JSON Schema 5.0 Data Field column"

/-- Whether a run reached the per-record loop (produced outputs) at all. -/
def runSucceeds (r : Except String (List (String × List SchemaField))) : Bool :=
  match r with
  | .ok _ => true
  | .error _ => false

/-- The six schema keys the per-row loop assigns unconditionally. -/
def overrideKeys : List String :=
  [fbaKey, statusKey, initialsKey, amountKey, deptKey, orcidKey]

/-- The Writer: each output overwrites any previously written file of the
same name (a fold of dictionary updates over the output sequence). -/
def writeAll {α : Type} (outs : List (String × α)) : List (String × α) :=
  outs.foldl (fun acc p => setEntry p.1 p.2 acc) []

/-! ### Helper lemmas -/

theorem lookup_setEntry_self {α : Type} (k : String) (v : α) (m : List (String × α)) :
    (setEntry k v m).lookup k = some v := by
  simp [setEntry, List.lookup]

theorem lookup_filter_ne {α : Type} (k k' : String) (h : k' ≠ k) (m : List (String × α)) :
    (m.filter (fun p => p.1 != k)).lookup k' = m.lookup k' := by
  induction m with
  | nil => rfl
  | cons a m ih =>
    by_cases ha : a.1 = k
    · have hfa : (a.1 != k) = false := by simp [ha]
      have hk2 : (k' == a.1) = false := by simp [ha, h]
      have hk3 : (k' == k) = false := by simp [h]
      simp [List.filter_cons, hfa, List.lookup, hk2, hk3, ih, ha]
    · have hfa : (a.1 != k) = true := by simp [ha]
      by_cases hk' : k' = a.1
      · simp [List.filter_cons, hfa, List.lookup, hk']
      · have hk2 : (k' == a.1) = false := by simp [hk']
        simp [List.filter_cons, hfa, List.lookup, hk2, ih]

theorem lookup_setEntry_ne {α : Type} (k k' : String) (h : k' ≠ k) (v : α)
    (m : List (String × α)) :
    (setEntry k v m).lookup k' = m.lookup k' := by
  have hk : (k' == k) = false := by simp [h]
  simp only [setEntry, List.lookup, hk]
  exact lookup_filter_ne k k' h m

/-- The value the per-row loop leaves on a template field with schema key
`df` and pre-populated value `v0`, as a single per-field function. -/
def resolveValue (r : NormRow) (df : Cell) (v0 : Cell) : Cell :=
  let v1 := if df = some fbaKey then r.fundingBodyAwardId else v0
  let v2 := update_value r.items df v1
  let v3 := if df = some statusKey then some (fundsStatus r.endDate r.createdOn) else v2
  let v4 := if df = some initialsKey then r.initials else v3
  let v5 := if df = some amountKey then r.amount else v4
  let v6 := if df = some deptKey then r.departmentName else v5
  if df = some orcidKey then r.orcid else v6

/-- `mapRecord` acts on each template field independently. -/
def applyAll (r : NormRow) (f : SchemaField) : SchemaField :=
  { dataField := f.dataField, value := resolveValue r f.dataField f.value }

theorem mapRecord_eq_map (r : NormRow) (t : List SchemaField) :
    mapRecord r t = t.map (applyAll r) := by
  simp only [mapRecord, setField, List.map_map]
  refine List.map_congr_left (fun f _ => ?_)
  simp only [Function.comp]
  by_cases h1 : f.dataField = some fbaKey <;>
    by_cases h2 : f.dataField = some statusKey <;>
      by_cases h3 : f.dataField = some initialsKey <;>
        by_cases h4 : f.dataField = some amountKey <;>
          by_cases h5 : f.dataField = some deptKey <;>
            by_cases h6 : f.dataField = some orcidKey <;>
              simp +decide [applyAll, resolveValue, h1, h2, h3, h4, h5, h6]

theorem applyAll_dataField (r : NormRow) (f : SchemaField) :
    (applyAll r f).dataField = f.dataField := rfl

theorem mapRecord_length (r : NormRow) (t : List SchemaField) :
    (mapRecord r t).length = t.length := by
  simp [mapRecord_eq_map]

theorem resolveValue_fba (r : NormRow) (v0 : Cell) :
    resolveValue r (some fbaKey) v0 =
      update_value r.items (some fbaKey) r.fundingBodyAwardId := by
  simp +decide [resolveValue]

theorem resolveValue_status (r : NormRow) (v0 : Cell) :
    resolveValue r (some statusKey) v0 = some (fundsStatus r.endDate r.createdOn) := by
  simp +decide [resolveValue]

theorem resolveValue_initials (r : NormRow) (v0 : Cell) :
    resolveValue r (some initialsKey) v0 = r.initials := by
  simp +decide [resolveValue]

theorem resolveValue_amount (r : NormRow) (v0 : Cell) :
    resolveValue r (some amountKey) v0 = r.amount := by
  simp +decide [resolveValue]

theorem resolveValue_dept (r : NormRow) (v0 : Cell) :
    resolveValue r (some deptKey) v0 = r.departmentName := by
  simp +decide [resolveValue]

theorem resolveValue_orcid (r : NormRow) (v0 : Cell) :
    resolveValue r (some orcidKey) v0 = r.orcid := by
  simp +decide [resolveValue]

theorem resolveValue_of_not_override (r : NormRow) (df : Cell) (v0 : Cell)
    (h : ∀ k ∈ overrideKeys, df ≠ some k) (hv : cellNonEmpty v0 = true) :
    resolveValue r df v0 = v0 := by
  have h1 := h fbaKey (by simp [overrideKeys])
  have h2 := h statusKey (by simp [overrideKeys])
  have h3 := h initialsKey (by simp [overrideKeys])
  have h4 := h amountKey (by simp [overrideKeys])
  have h5 := h deptKey (by simp [overrideKeys])
  have h6 := h orcidKey (by simp [overrideKeys])
  simp [resolveValue, h1, h2, h3, h4, h5, h6, update_value, hv]

theorem normalizeRow_lookup_fba (parse : String → Option Int) (cols : List String) (row : Row) :
    (normalizeRow parse cols row).items.lookup fbaKey =
      some (normalizeRow parse cols row).fundingBodyAwardId := by
  simp only [normalizeRow]
  rw [lookup_setEntry_ne orcidKey fbaKey (by decide),
    lookup_setEntry_ne deptKey fbaKey (by decide),
    lookup_setEntry_ne amountKey fbaKey (by decide),
    lookup_setEntry_ne "createdOn" fbaKey (by decide),
    lookup_setEntry_ne "endDate" fbaKey (by decide)]
  by_cases hf : familyKey ∈ cols
  · simp only [hf, if_true]
    rw [lookup_setEntry_ne nameKey fbaKey (by decide), lookup_setEntry_self]
  · simp only [hf, if_false]
    rw [lookup_setEntry_self]

theorem update_value_fba_of_norm (parse : String → Option Int) (cols : List String) (row : Row) :
    update_value (normalizeRow parse cols row).items (some fbaKey)
      (normalizeRow parse cols row).fundingBodyAwardId =
      (normalizeRow parse cols row).fundingBodyAwardId := by
  have hl := normalizeRow_lookup_fba parse cols row
  by_cases hc : cellNonEmpty (normalizeRow parse cols row).fundingBodyAwardId = true
  · simp [update_value, hc]
  · simp [update_value, hc, hl]

theorem map_csv_to_csv_ok (parse : String → Option Int) (src : SourceTable) (tgt : TargetTable)
    (out : List (String × List SchemaField)) (h : map_csv_to_csv parse src tgt = .ok out) :
    out = src.rows.enum.map (fun p => perRowOutput parse src.cols p.1 p.2 tgt.fields) := by
  simp only [map_csv_to_csv] at h
  split_ifs at h <;> simp_all

theorem map_ok_get (parse : String → Option Int) (src : SourceTable) (tgt : TargetTable)
    (out : List (String × List SchemaField)) (h : map_csv_to_csv parse src tgt = .ok out) :
    out.length = src.rows.length ∧
      ∀ i (h1 : i < out.length) (h2 : i < src.rows.length),
        out.get ⟨i, h1⟩ = perRowOutput parse src.cols i (src.rows.get ⟨i, h2⟩) tgt.fields := by
  have he := map_csv_to_csv_ok parse src tgt out h
  subst he
  refine ⟨by simp, ?_⟩
  intro i h1 h2
  simp

theorem digitChar_not_ws (n : Nat) (h : n < 10) :
    (Nat.digitChar n).isWhitespace = false := by
  interval_cases n <;> decide

theorem toDigitsCore_not_ws (fuel : Nat) :
    ∀ (n : Nat) (ds : List Char), (∀ c ∈ ds, c.isWhitespace = false) →
      ∀ c ∈ Nat.toDigitsCore 10 fuel n ds, c.isWhitespace = false := by
  induction fuel with
  | zero => intro n ds hds c hc; exact hds c hc
  | succ fuel ih =>
    intro n ds hds c hc
    have hcons : ∀ c ∈ Nat.digitChar (n % 10) :: ds, c.isWhitespace = false := by
      intro c' hc'
      rcases List.mem_cons.mp hc' with hc' | hc'
      · subst hc'
        exact digitChar_not_ws _ (Nat.mod_lt _ (by decide))
      · exact hds c' hc'
    simp only [Nat.toDigitsCore] at hc
    by_cases h0 : n / 10 = 0
    · rw [if_pos h0] at hc
      exact hcons c hc
    · rw [if_neg h0] at hc
      exact ih (n / 10) (Nat.digitChar (n % 10) :: ds) hcons c hc

theorem toString_nat_not_ws (i : Nat) :
    ∀ c ∈ (toString i).data, c.isWhitespace = false := by
  intro c hc
  exact toDigitsCore_not_ws (i + 1) i [] (by intro c hc; cases hc) c hc

theorem dropWhile_ws_append (l m : List Char) (hl : ∀ c ∈ l, c.isWhitespace = false)
    (hm : m.dropWhile Char.isWhitespace = m) :
    (l ++ m).dropWhile Char.isWhitespace = l ++ m := by
  induction l with
  | nil => simpa using hm
  | cons a l ih =>
    have ha : a.isWhitespace = false := hl a (by simp)
    simp [List.dropWhile_cons, ha]

theorem pyStrip_rowTag (i : Nat) : pyStrip (rowTag i) = rowTag i := by
  have hdata : (rowTag i).data = 'r' :: 'o' :: 'w' :: '_' :: (toString i).data := by
    simp [rowTag]
  have hfront : (rowTag i).data.dropWhile Char.isWhitespace = (rowTag i).data := by
    rw [hdata]
    rw [List.dropWhile_cons_of_neg (by decide)]
  have hback :
      ((rowTag i).data.reverse.dropWhile Char.isWhitespace) = (rowTag i).data.reverse := by
    rw [hdata]
    have hrev : ('r' :: 'o' :: 'w' :: '_' :: (toString i).data).reverse =
        (toString i).data.reverse ++ ['_', 'w', 'o', 'r'] := by
      simp
    rw [hrev, dropWhile_ws_append _ _
      (fun c hc => toString_nat_not_ws i c (List.mem_reverse.mp hc)) (by decide)]
  have : pyStrip (rowTag i) = String.mk (rowTag i).data := by
    rw [pyStrip, hfront, hback, List.reverse_reverse]
  simpa using this

theorem rowTag_ne_empty (i : Nat) : rowTag i ≠ "" := by
  intro h
  have h2 := congrArg String.data h
  simp [rowTag] at h2

theorem pyLower_rowTag_ne_nan (i : Nat) : pyLower (rowTag i) ≠ "nan" := by
  intro h
  have h2 := congrArg String.data h
  simp +decide [pyLower, rowTag] at h2

theorem outputId_none (i : Nat) : outputId none i = rowTag i := by
  simp only [outputId]
  rw [pyStrip_rowTag]
  rw [if_neg]
  intro h
  rcases h with h | h
  · exact rowTag_ne_empty i h
  · exact pyLower_rowTag_ne_nan i h

theorem splitDotHeadAux_eq_takeWhile (l : List Char) :
    splitDotHeadAux l = l.takeWhile (fun ch => ch != '.') := by
  induction l with
  | nil => rfl
  | cons a l ih =>
    by_cases ha : a = '.'
    · simp [splitDotHeadAux, ha, List.takeWhile_cons]
    · simp [splitDotHeadAux, ha, List.takeWhile_cons, ih]

/-! ### Claim theorems -/

/-- C3: the derived `funds/status` is `"OPEN"` exactly when both `endDate`
and `createdOn` are valid (non-sentinel) dates and `endDate` is strictly
after `createdOn`; `"CLOSED"` when both are valid and `endDate` is not
strictly after `createdOn` (equality included); `"UNKNOWN"` when either date
is the no-date sentinel. -/
theorem funds_status_rule (e c : Option Int) :
    (∀ ed cd : Int, e = some ed → c = some cd →
      fundsStatus e c = if ed > cd then "OPEN" else "CLOSED") ∧
    ((e = none ∨ c = none) → fundsStatus e c = "UNKNOWN") ∧
    (fundsStatus e c = "OPEN" ↔ ∃ ed cd : Int, e = some ed ∧ c = some cd ∧ ed > cd) := by
  cases e with
  | none => cases c <;> simp +decide [fundsStatus]
  | some ed =>
    cases c with
    | none => simp +decide [fundsStatus]
    | some cd =>
      refine ⟨?_, ?_, ?_⟩
      · intro ed' cd' he hc
        injection he with h1
        injection hc with h2
        subst h1
        subst h2
        rfl
      · intro h
        rcases h with h | h <;> exact absurd h (by simp)
      · by_cases hgt : ed > cd
        · have hv : fundsStatus (some ed) (some cd) = "OPEN" := by
            simp [fundsStatus, hgt]
          rw [hv]
          exact ⟨fun _ => ⟨ed, cd, rfl, rfl, hgt⟩, fun _ => rfl⟩
        · have hv : fundsStatus (some ed) (some cd) = "CLOSED" := by
            simp [fundsStatus, hgt]
          rw [hv]
          constructor
          · intro hEq
            exact absurd hEq (by decide)
          · rintro ⟨ed', cd', he, hc, hgt'⟩
            injection he with h1
            injection hc with h2
            subst h1
            subst h2
            exact absurd hgt' hgt

theorem funds_status_rule_witness :
    fundsStatus (some 5) (some 1) = "OPEN" ∧
    fundsStatus (some 1) (some 1) = "CLOSED" ∧
    fundsStatus none (some 1) = "UNKNOWN" := by
  refine ⟨?_, ?_, (funds_status_rule none (some 1)).2.1 (Or.inl rfl)⟩
  · have h := (funds_status_rule (some 5) (some 1)).1 5 1 rfl rfl
    simpa using h
  · have h := (funds_status_rule (some 1) (some 1)).1 1 1 rfl rfl
    simpa using h

/-- C4: the normalized funding amount of a non-null cell is the raw string
truncated at the first decimal point (the substring before the first `'.'`,
not rounded); but a null funding amount normalizes to `"nan"`, not to the
claimed `"NOT FOUND"`: `astype(str)` turns `NaN` into the string `"nan"`
before the (dead) `fillna("NOT FOUND")` can fire. -/
theorem amount_truncation_and_null :
    (∀ s : String, normAmount (some s) =
      some (String.mk (s.data.takeWhile (fun ch => ch != '.')))) ∧
    normAmount (some "1234.99") = some "1234" ∧
    normAmount (some "1234") = some "1234" ∧
    normAmount none = some "nan" := by
  refine ⟨?_, by decide, by decide, by decide⟩
  intro s
  simp [normAmount, fillnaCell, astypeStr, splitDotHead, splitDotHeadAux_eq_takeWhile]

/-- C5: the normalized `fundingBodyAwardId` of a non-null cell is the raw
string stripped of surrounding whitespace; but a null cell normalizes to
`"nan"`, not to the claimed `"NOT FOUND"`: `astype(str)` turns `NaN` into
the string `"nan"` before the (dead) `fillna("NOT FOUND")` can fire. -/
theorem fundingBodyAwardId_trim_and_null :
    (∀ s : String, normFundingBodyAwardId (some s) = some (pyStrip s)) ∧
    normFundingBodyAwardId none = some "nan" := by
  exact ⟨fun s => rfl, by decide⟩

/-- C6: for a non-null (hence, as loaded from a CSV, non-empty) `givenName`
the derived initials value is the first character upper-cased followed by a
period; for a null `givenName` it is the empty string, not `"NOT FOUND"`. -/
theorem initials_rule :
    (∀ (s : String) (c : Char), strGet0 s = some c →
      initialsOf (some s) = some (String.mk [c.toUpper, '.'])) ∧
    initialsOf (some "Jane") = some "J." ∧
    initialsOf none = some "" := by
  refine ⟨?_, by decide, rfl⟩
  intro s c hc
  simp [initialsOf, astypeStr, hc]

theorem initials_rule_witness :
    strGet0 "Jane" = some 'J' ∧ initialsOf (some "Jane") = some (String.mk ['J'.toUpper, '.']) :=
  ⟨by decide, initials_rule.1 "Jane" 'J' (by decide)⟩

/-- C1: for a SchemaField whose existing value is null or empty, the default
fill (`update_value`) produces the source record's value for the field's
`dataField` key when that key is in the source mapping and `"NOT FOUND"`
otherwise; a non-empty existing value is kept by `update_value`, and a
non-empty value whose key is not in the override list survives the whole
per-record mapping unchanged. -/
theorem default_fill_rule :
    (∀ (items : Row) (k : String) (current : Cell), cellNonEmpty current = false →
      ((∀ v, items.lookup k = some v → update_value items (some k) current = v) ∧
       (items.lookup k = none → update_value items (some k) current = some "NOT FOUND"))) ∧
    (∀ (items : Row) (fn current : Cell), cellNonEmpty current = true →
      update_value items fn current = current) ∧
    (∀ (r : NormRow) (template : List SchemaField) (i : Nat)
       (h : i < template.length) (h' : i < (mapRecord r template).length),
      cellNonEmpty (template.get ⟨i, h⟩).value = true →
      (∀ k ∈ overrideKeys, (template.get ⟨i, h⟩).dataField ≠ some k) →
      (mapRecord r template).get ⟨i, h'⟩ = template.get ⟨i, h⟩) := by
  refine ⟨?_, ?_, ?_⟩
  · intro items k current hc
    constructor
    · intro v hv
      simp [update_value, hc, hv]
    · intro hv
      simp [update_value, hc, hv]
  · intro items fn current hc
    simp [update_value, hc]
  · intro r template i h h' hval hkeys
    have hm : (mapRecord r template).get ⟨i, h'⟩ = applyAll r (template.get ⟨i, h⟩) := by
      simp [mapRecord_eq_map]
    rw [hm]
    show ({ dataField := (template.get ⟨i, h⟩).dataField,
            value := resolveValue r (template.get ⟨i, h⟩).dataField
              (template.get ⟨i, h⟩).value } : SchemaField) = template.get ⟨i, h⟩
    rw [resolveValue_of_not_override r _ _ hkeys hval]

theorem default_fill_rule_witness :
    update_value [("k", some "v")] (some "k") none = some "v" ∧
    update_value [] (some "k") none = some "NOT FOUND" ∧
    update_value [] none (some "static") = some "static" ∧
    (mapRecord (normalizeRow (fun _ => none) [] [])
        [⟨some "x", some "static"⟩]).get ⟨0, by decide⟩ =
      (⟨some "x", some "static"⟩ : SchemaField) := by
  refine ⟨?_, ?_, ?_, ?_⟩
  · exact (default_fill_rule.1 [("k", some "v")] "k" none (by decide)).1 (some "v") (by decide)
  · exact (default_fill_rule.1 [] "k" none (by decide)).2 (by decide)
  · exact default_fill_rule.2.1 [] none (some "static") (by decide)
  · exact default_fill_rule.2.2 (normalizeRow (fun _ => none) [] [])
      [⟨some "x", some "static"⟩] 0 (by decide) (by decide) (by decide) (by decide)

/-- C2: every schema field of the produced TargetRecord whose key is one of
the six override keys carries exactly the corresponding derived/normalized
source-record attribute, whatever the template pre-populated and whatever the
default fill produced. -/
theorem override_keys_final (parse : String → Option Int) (cols : List String) (row : Row)
    (template : List SchemaField) (f : SchemaField)
    (hf : f ∈ mapRecord (normalizeRow parse cols row) template) :
    (f.dataField = some fbaKey →
      f.value = (normalizeRow parse cols row).fundingBodyAwardId) ∧
    (f.dataField = some statusKey →
      f.value = some (fundsStatus (normalizeRow parse cols row).endDate
        (normalizeRow parse cols row).createdOn)) ∧
    (f.dataField = some initialsKey → f.value = (normalizeRow parse cols row).initials) ∧
    (f.dataField = some amountKey → f.value = (normalizeRow parse cols row).amount) ∧
    (f.dataField = some deptKey → f.value = (normalizeRow parse cols row).departmentName) ∧
    (f.dataField = some orcidKey → f.value = (normalizeRow parse cols row).orcid) := by
  rw [mapRecord_eq_map] at hf
  obtain ⟨g, hg, rfl⟩ := List.mem_map.mp hf
  refine ⟨?_, ?_, ?_, ?_, ?_, ?_⟩ <;> intro hdf
  · have hdf' : g.dataField = some fbaKey := hdf
    show resolveValue (normalizeRow parse cols row) g.dataField g.value = _
    rw [hdf', resolveValue_fba, update_value_fba_of_norm]
  · have hdf' : g.dataField = some statusKey := hdf
    show resolveValue (normalizeRow parse cols row) g.dataField g.value = _
    rw [hdf', resolveValue_status]
  · have hdf' : g.dataField = some initialsKey := hdf
    show resolveValue (normalizeRow parse cols row) g.dataField g.value = _
    rw [hdf', resolveValue_initials]
  · have hdf' : g.dataField = some amountKey := hdf
    show resolveValue (normalizeRow parse cols row) g.dataField g.value = _
    rw [hdf', resolveValue_amount]
  · have hdf' : g.dataField = some deptKey := hdf
    show resolveValue (normalizeRow parse cols row) g.dataField g.value = _
    rw [hdf', resolveValue_dept]
  · have hdf' : g.dataField = some orcidKey := hdf
    show resolveValue (normalizeRow parse cols row) g.dataField g.value = _
    rw [hdf', resolveValue_orcid]

theorem override_keys_final_witness :
    (⟨some fbaKey, some "nan"⟩ : SchemaField).value =
      (normalizeRow (fun _ => none) [] []).fundingBodyAwardId :=
  (override_keys_final (fun _ => none) [] [] [⟨some fbaKey, none⟩]
    ⟨some fbaKey, some "nan"⟩ (by decide)).1 rfl

/-- C7: the output identifier is the stripped `grantAwardId`; when the
column is absent, when the value strips to the empty string, or when it
equals `"nan"` case-insensitively, the identifier is `row_<i>` with `i` the
record's 1-based position in the source sequence. -/
theorem output_identifier_rule :
    (∀ (g : String) (i : Nat), pyStrip g ≠ "" → pyLower (pyStrip g) ≠ "nan" →
      outputId (some (some g)) i = pyStrip g) ∧
    (∀ i : Nat, outputId none i = rowTag i) ∧
    (∀ (g : String) (i : Nat), pyStrip g = "" → outputId (some (some g)) i = rowTag i) ∧
    (∀ (g : String) (i : Nat), pyLower (pyStrip g) = "nan" →
      outputId (some (some g)) i = rowTag i) ∧
    (∀ (parse : String → Option Int) (src : SourceTable) (tgt : TargetTable) out,
      map_csv_to_csv parse src tgt = Except.ok out →
      ∀ i (h1 : i < out.length) (h2 : i < src.rows.length),
        (out.get ⟨i, h1⟩).1 =
          outputId (normalizeRow parse src.cols (src.rows.get ⟨i, h2⟩)).grantAwardId (i + 1)) := by
  refine ⟨?_, outputId_none, ?_, ?_, ?_⟩
  · intro g i h1 h2
    simp [outputId, astypeStr, h1, h2]
  · intro g i h
    simp [outputId, astypeStr, h]
  · intro g i h
    simp [outputId, astypeStr, h]
  · intro parse src tgt out hok i h1 h2
    rw [(map_ok_get parse src tgt out hok).2 i h1 h2]
    rfl

theorem output_identifier_rule_witness :
    outputId (some (some " G-1 ")) 1 = pyStrip " G-1 " ∧
    outputId (some (some "NaN")) 2 = rowTag 2 :=
  ⟨output_identifier_rule.1 " G-1 " 1 (by decide) (by decide),
   output_identifier_rule.2.2.2.1 "NaN" 2 (by decide)⟩

/-- C8: if any required source column (givenName, fundingBodyAwardId,
endDate, createdOn, fundingTotal/amount, departmentName, orcid) or the
template's data-field column is absent, the run aborts before producing any
per-record output. -/
theorem missing_column_aborts (parse : String → Option Int) (src : SourceTable)
    (tgt : TargetTable)
    (h : givenKey ∉ src.cols ∨ fbaKey ∉ src.cols ∨ "endDate" ∉ src.cols ∨
      "createdOn" ∉ src.cols ∨ amountKey ∉ src.cols ∨ deptKey ∉ src.cols ∨
      orcidKey ∉ src.cols ∨ dataFieldCol ∉ tgt.cols) :
    runSucceeds (map_csv_to_csv parse src tgt) = false := by
  simp only [map_csv_to_csv]
  split_ifs <;> simp_all [runSucceeds]

theorem missing_column_aborts_witness :
    runSucceeds (map_csv_to_csv (fun _ => none) ⟨[], []⟩ ⟨[dataFieldCol], []⟩) = false :=
  missing_column_aborts (fun _ => none) ⟨[], []⟩ ⟨[dataFieldCol], []⟩ (Or.inl (by decide))

/-- C9: every per-record output is a function of that record's own row, the
source columns and the original template only — the template is never
mutated — so equal source rows yield identical TargetRecords wherever they
occur in the run. -/
theorem template_isolation (parse : String → Option Int) (src : SourceTable)
    (tgt : TargetTable) (out : List (String × List SchemaField))
    (h : map_csv_to_csv parse src tgt = Except.ok out) :
    (∀ i (h1 : i < out.length) (h2 : i < src.rows.length),
      out.get ⟨i, h1⟩ = perRowOutput parse src.cols i (src.rows.get ⟨i, h2⟩) tgt.fields) ∧
    (∀ i j (hi : i < out.length) (hj : j < out.length)
       (hi' : i < src.rows.length) (hj' : j < src.rows.length),
      src.rows.get ⟨i, hi'⟩ = src.rows.get ⟨j, hj'⟩ →
      (out.get ⟨i, hi⟩).2 = (out.get ⟨j, hj⟩).2) := by
  have hg := (map_ok_get parse src tgt out h).2
  refine ⟨hg, ?_⟩
  intro i j hi hj hi' hj' hrow
  rw [hg i hi hi', hg j hj hj']
  simp only [List.get_eq_getElem] at hrow
  simp [perRowOutput, hrow]

theorem template_isolation_witness :
    (([("row_1", ([] : List SchemaField)), ("row_2", [])].get ⟨0, by decide⟩).2 =
      ([("row_1", ([] : List SchemaField)), ("row_2", [])].get ⟨1, by decide⟩).2) :=
  (template_isolation (fun _ => none)
      ⟨[givenKey, fbaKey, "endDate", "createdOn", amountKey, deptKey, orcidKey], [[], []]⟩
      ⟨[dataFieldCol], []⟩ [("row_1", []), ("row_2", [])] (by rfl)).2
    0 1 (by decide) (by decide) (by decide) (by decide) (by decide)

/-- C10: two records whose grantAwardId values strip to the same non-empty,
non-"nan" string get the same output identifier, hence the same
deterministically derived file name, and the later write replaces the
earlier one in the Writer's output store. -/
theorem duplicate_identifier_overwrite :
    (∀ (g1 g2 : String) (i1 i2 : Nat), pyStrip g1 = pyStrip g2 → pyStrip g1 ≠ "" →
      pyLower (pyStrip g1) ≠ "nan" →
      outputId (some (some g1)) i1 = outputId (some (some g2)) i2 ∧
      outFileName (outputId (some (some g1)) i1) =
        outFileName (outputId (some (some g2)) i2)) ∧
    (∀ {α : Type} (outs : List (String × α)) (n : String) (c : α),
      (writeAll (outs ++ [(n, c)])).lookup n = some c) := by
  constructor
  · intro g1 g2 i1 i2 heq h1 h2
    have e1 : outputId (some (some g1)) i1 = pyStrip g1 := by
      simp [outputId, astypeStr, h1, h2]
    have e2 : outputId (some (some g2)) i2 = pyStrip g2 := by
      simp [outputId, astypeStr, heq ▸ h1, heq ▸ h2]
    rw [e1, e2, heq]
    exact ⟨rfl, rfl⟩
  · intro α outs n c
    have hw : writeAll (outs ++ [(n, c)]) = setEntry n c (writeAll outs) := by
      simp [writeAll, List.foldl_append]
    rw [hw]
    exact lookup_setEntry_self n c _

theorem duplicate_identifier_overwrite_witness :
    outputId (some (some " G-1 ")) 1 = outputId (some (some "G-1")) 2 ∧
    (writeAll ([("mapped_output_G-1.csv", "first")] ++
        [("mapped_output_G-1.csv", "second")])).lookup "mapped_output_G-1.csv" =
      some "second" :=
  ⟨(duplicate_identifier_overwrite.1 " G-1 " "G-1" 1 2 (by decide) (by decide) (by decide)).1,
   duplicate_identifier_overwrite.2 [("mapped_output_G-1.csv", "first")]
     "mapped_output_G-1.csv" "second"⟩

end MappingTool
